import Mathlib

/-!
Shallow embedding of the authentication core of the
`sistemamovemarias` backend (Flask/SQLAlchemy, Python), covering:

* `src/backend/app/models/usuario.py` — the `Usuario` model with its
  credential and lockout helpers (`set_password`, `check_password`,
  `is_blocked`, `increment_login_attempts`, `reset_login_attempts`);
* `src/backend/app/routes/auth.py` — the `login`, `refresh`, `logout`
  route bodies, the module-level `revoked_tokens` set and the
  `check_if_token_revoked` before-request middleware;
* `src/backend/app/config.py` — the JWT TTL configuration values
  consumed by the routes.

Timestamps are modelled as `Nat` seconds.  Python dynamic failures that
the route bodies can raise (a `TypeError` from passing a `timedelta`
where a number is expected, an `AttributeError` from calling a method
the class does not define) are modelled explicitly as `PyErr` outcomes;
Flask turns an unhandled exception into an HTTP 500 response via the
generic handler in `src/backend/app/utils/error_handlers.py`.
-/

namespace MoveMarias

/-- Dynamic errors a route body can raise; Flask maps an unhandled one
to an HTTP 500 response (`handle_generic_exception`). -/
inductive PyErr where
  | typeError
  | attributeError
deriving DecidableEq, Repr

/-! ### Credential hashing (external `flask_bcrypt` library, modelled)

`bcrypt.generate_password_hash` / `bcrypt.check_password_hash` are an
external library.  They are modelled as a deterministic salted digest:
the only property of bcrypt the development relies on is that checking
a password against the hash generated from that same password succeeds
(determinism of the digest given the salt embedded in the hash). -/

/-- Model of the bcrypt digest computation: a deterministic function of
the salt and the password. -/
def bcryptDigest (salt senha : String) : String :=
  salt ++ "$" ++ senha

/-- Model of a bcrypt hash string: it carries its salt and the digest. -/
structure BcryptHash where
  salt : String
  digest : String
deriving DecidableEq, Repr

/-- Model of `bcrypt.generate_password_hash` (salt drawn by the caller
environment). -/
def generate_password_hash (senha : String) (salt : String) : BcryptHash :=
  { salt := salt, digest := bcryptDigest salt senha }

/-- Model of `bcrypt.check_password_hash`: recompute the digest with the
salt stored in the hash and compare. -/
def check_password_hash (h : BcryptHash) (senha : String) : Bool :=
  h.digest == bcryptDigest h.salt senha

/-! ### The `Usuario` model (`src/backend/app/models/usuario.py`) -/

/-- `TipoUsuarioEnum` from `usuario.py`. -/
inductive TipoUsuarioEnum where
  | ADMIN
  | PROFISSIONAL
deriving DecidableEq, Repr

/-- The `Usuario` row: the columns the authentication core reads or
writes (`id`, `nome`, `email`, `senha_hash`, `tipo_usuario`, `ativo`,
`ultimo_login`, `tentativas_login`, `bloqueado_ate`). -/
structure Usuario where
  id : Nat
  nome : String
  email : String
  senha_hash : BcryptHash
  tipo_usuario : TipoUsuarioEnum
  ativo : Bool
  ultimo_login : Option Nat
  tentativas_login : Nat
  bloqueado_ate : Option Nat
deriving DecidableEq, Repr

/-- `Usuario.set_password`: store the bcrypt hash of the new password. -/
def Usuario.set_password (u : Usuario) (senha salt : String) : Usuario :=
  { u with senha_hash := generate_password_hash senha salt }

/-- `Usuario.check_password`, in state-passing form mirroring the Python
method: its body is a single `return bcrypt.check_password_hash(...)`
with no assignment, so the returned account state is the receiver
unchanged. -/
def Usuario.check_password_eff (u : Usuario) (senha : String) : Bool × Usuario :=
  (check_password_hash u.senha_hash senha, u)

/-- `Usuario.check_password` as the boolean the route branches on. -/
def Usuario.check_password (u : Usuario) (senha : String) : Bool :=
  (u.check_password_eff senha).fst

/-- `Usuario.is_blocked`: blocked iff `bloqueado_ate` is set and the
current time is still strictly before it. -/
def Usuario.is_blocked (u : Usuario) (now : Nat) : Bool :=
  match u.bloqueado_ate with
  | none => false
  | some t => now < t

/-- `Config.MAX_LOGIN_ATTEMPTS` default (`config.py`). -/
def MAX_LOGIN_ATTEMPTS : Nat := 5

/-- `Config.LOGIN_ATTEMPT_TIMEOUT` default, in minutes (`config.py`). -/
def LOGIN_ATTEMPT_TIMEOUT : Nat := 15

/-- `Usuario.increment_login_attempts`: bump the failure counter and,
once it reaches the threshold, set `bloqueado_ate = now + timeout`. -/
def Usuario.increment_login_attempts (u : Usuario) (now : Nat) : Usuario :=
  let u1 : Usuario := { u with tentativas_login := u.tentativas_login + 1 }
  if u1.tentativas_login ≥ MAX_LOGIN_ATTEMPTS then
    { u1 with bloqueado_ate := some (now + LOGIN_ATTEMPT_TIMEOUT * 60) }
  else
    u1

/-- `Usuario.reset_login_attempts`: zero the counter, clear the lock and
record the login time. -/
def Usuario.reset_login_attempts (u : Usuario) (now : Nat) : Usuario :=
  { u with tentativas_login := 0, bloqueado_ate := none, ultimo_login := some now }

/-- Model of Python `str.lower` on one ASCII character. -/
def pyCharLower (c : Char) : Char :=
  if 65 ≤ c.toNat && c.toNat ≤ 90 then Char.ofNat (c.toNat + 32) else c

/-- Model of Python `str.lower`. -/
def pyLower (s : String) : String :=
  ⟨s.data.map pyCharLower⟩

/-- Whitespace characters removed by Python `str.strip`. -/
def pyIsSpace (c : Char) : Bool :=
  c == ' ' || c == '\t' || c == '\n' || c == '\r'

/-- Model of Python `str.strip`. -/
def pyStrip (s : String) : String :=
  ⟨((s.data.dropWhile pyIsSpace).reverse.dropWhile pyIsSpace).reverse⟩

/-- `Usuario.find_by_email`: the ORM query modelled over a list of rows;
the argument is normalised with `.lower().strip()` before comparison. -/
def find_by_email (users : List Usuario) (email : String) : Option Usuario :=
  users.find? (fun u => u.email == pyStrip (pyLower email))

/-- `Usuario.find_by_id` modelled over a list of rows. -/
def find_by_id (users : List Usuario) (uid : Nat) : Option Usuario :=
  users.find? (fun u => u.id == uid)

/-- The `Usuario` class defines no `update_last_login` method (no such
definition exists anywhere in the repository); looking the attribute up
on an instance yields nothing, so calling it raises `AttributeError`.
This is recorded as the absent method table entry. -/
def update_last_login_method : Option (Usuario → Nat → Usuario) := none

/-! ### JWT tokens (`flask_jwt_extended`, modelled)

`create_access_token` / `create_refresh_token` mint a signed token with
a fresh `jti`, `iat = now` and `exp = now + expires_delta`; decorators
`jwt_required()` / `jwt_required(refresh=True)` accept only a
structurally valid token of the required kind that has not expired.
Signature checking is modelled away (every `Jwt` value stands for a
token signed with the server key). -/

/-- Token kind claim. -/
inductive TokenKind where
  | access
  | refresh
deriving DecidableEq, Repr

/-- The claims of a signed token relevant to the routes. -/
structure Jwt where
  jti : String
  sub : Nat
  kind : TokenKind
  issued_at : Nat
  expires_at : Nat
deriving DecidableEq, Repr

/-- Model of `create_access_token(identity, expires_delta)`; `delta` is
the already-computed `expires_delta` in seconds, `jti` the fresh random
token identifier drawn by the library. -/
def create_access_token (identity : Nat) (delta : Nat) (now : Nat) (jti : String) : Jwt :=
  { jti := jti, sub := identity, kind := .access, issued_at := now, expires_at := now + delta }

/-- Model of `create_refresh_token(identity, expires_delta)`. -/
def create_refresh_token (identity : Nat) (delta : Nat) (now : Nat) (jti : String) : Jwt :=
  { jti := jti, sub := identity, kind := .refresh, issued_at := now, expires_at := now + delta }

/-- Library-side validity gate applied by `jwt_required`: right kind and
not yet expired (`exp` still in the future). -/
def jwtAccepted (tok : Jwt) (required : TokenKind) (now : Nat) : Bool :=
  tok.kind == required && now < tok.expires_at

/-! ### Configuration (`src/backend/app/config.py`)

The routes read `current_app.config.get(KEY, default)`.  A stored value
is either the `datetime.timedelta` object that `config.py` assigns, or
a plain number when the key is absent and the route default `24` / `30`
is used.  `timedelta(hours=x)` / `timedelta(days=x)` succeed on a
number and raise `TypeError` on a `timedelta` argument. -/

/-- A Python value that can appear where the routes build a
`timedelta`: a plain number, or an already-built `timedelta` (carrying
its total seconds). -/
inductive PyTimeValue where
  | num (n : Nat)
  | td (seconds : Nat)
deriving DecidableEq, Repr

/-- Model of `current_app.config.get(key, default)` for the TTL keys. -/
def configGet (stored : Option PyTimeValue) (default : Nat) : PyTimeValue :=
  stored.getD (.num default)

/-- Model of `timedelta(hours=x)`, as total seconds: defined on numbers,
`TypeError` on a `timedelta` argument. -/
def timedelta_hours : PyTimeValue → Except PyErr Nat
  | .num n => .ok (n * 3600)
  | .td _ => .error .typeError

/-- Model of `timedelta(days=x)`, as total seconds. -/
def timedelta_days : PyTimeValue → Except PyErr Nat
  | .num n => .ok (n * 86400)
  | .td _ => .error .typeError

/-- The TTL entries of the Flask application configuration. -/
structure AppConfig where
  jwt_access_expires : Option PyTimeValue
  jwt_refresh_expires : Option PyTimeValue
deriving DecidableEq, Repr

/-- The values `config.py` assigns (base `Config` class, lines 33-40):
`JWT_ACCESS_TOKEN_EXPIRES = timedelta(hours=24)` and
`JWT_REFRESH_TOKEN_EXPIRES = timedelta(days=30)` — `timedelta` objects,
loaded into `app.config` by `create_app` via `from_object`. -/
def shippedConfig : AppConfig :=
  { jwt_access_expires := some (.td (24 * 3600)),
    jwt_refresh_expires := some (.td (30 * 86400)) }

/-- An application configuration in which the TTL keys are absent, so
the route-level defaults `24` hours and `30` days apply. -/
def defaultedConfig : AppConfig :=
  { jwt_access_expires := none, jwt_refresh_expires := none }

/-! ### The `login` route (`src/backend/app/routes/auth.py`, lines 35-112) -/

/-- Outcome of a `login` request as the route body produces it: an
explicit JSON failure (with the reason string passed to
`log_security_event`), an explicit JSON success carrying the token
pair, or an unhandled Python exception (HTTP 500). -/
inductive LoginResponse where
  | failure (status : Nat) (message : String) (loggedReason : String)
  | success (status : Nat) (message : String) (access_token refresh_token : Jwt)
  | pythonError (e : PyErr)
deriving DecidableEq, Repr

/-- The pair (status code, body message) a caller can observe; an
unhandled exception surfaces as the generic 500 response of
`handle_generic_exception` (non-debug branch). -/
def LoginResponse.visible : LoginResponse → Nat × String
  | .failure status message _ => (status, message)
  | .success status message _ _ => (status, message)
  | .pythonError _ => (500, "Ocorreu um erro interno. Tente novamente mais tarde.")

/-- The reason string the route hands to `log_security_event` on a
failed attempt (internal audit log, not part of the response). -/
def LoginResponse.loggedReason : LoginResponse → Option String
  | .failure _ _ reason => some reason
  | _ => none

/-- The `login` route body, step for step:
lookup by email (miss → uniform 401), `ativo` check (401 with a
distinct message), `check_password` (mismatch → uniform 401), then
`create_access_token` / `create_refresh_token` with
`timedelta(hours=cfg)` / `timedelta(days=cfg)`, then
`usuario.update_last_login()` — a method `Usuario` does not define.
`jtiA`, `jtiR` are the fresh token identifiers the library would draw.
Note the route never calls `is_blocked`, `increment_login_attempts` or
`reset_login_attempts`. -/
def login (users : List Usuario) (cfg : AppConfig) (email senha : String)
    (now : Nat) (jtiA jtiR : String) : LoginResponse :=
  match find_by_email users email with
  | none => .failure 401 "Email ou senha inválidos" "user_not_found"
  | some usuario =>
    if !usuario.ativo then
      .failure 401 "Usuário inativo. Entre em contato com o administrador." "user_inactive"
    else if !usuario.check_password senha then
      .failure 401 "Email ou senha inválidos" "wrong_password"
    else
      match timedelta_hours (configGet cfg.jwt_access_expires 24) with
      | .error e => .pythonError e
      | .ok deltaA =>
        match timedelta_days (configGet cfg.jwt_refresh_expires 30) with
        | .error e => .pythonError e
        | .ok deltaR =>
          let access_token := create_access_token usuario.id deltaA now jtiA
          let refresh_token := create_refresh_token usuario.id deltaR now jtiR
          match update_last_login_method with
          | none => .pythonError .attributeError
          | some m =>
            let _ := m usuario now
            .success 200 "Login realizado com sucesso" access_token refresh_token

/-! ### The `refresh` route (`auth.py`, lines 115-158) -/

/-- Outcome of a `refresh` request: rejection by the
`jwt_required(refresh=True)` gate, the explicit 401s of the body, an
unhandled exception, or success with the new access token. -/
inductive RefreshResponse where
  | jwtRejected
  | tokenInvalid401
  | userNotFound401
  | pythonError (e : PyErr)
  | success (new_access_token : Jwt)
deriving DecidableEq, Repr

/-- The `refresh` route body: library gate (refresh kind, unexpired),
then the explicit `jti in revoked_tokens` check (401 Token inválido),
user lookup and `ativo` check, then `create_access_token` with
`timedelta(hours=cfg)`. -/
def refresh (users : List Usuario) (revoked_tokens : List String) (cfg : AppConfig)
    (tok : Jwt) (now : Nat) (jtiNew : String) : RefreshResponse :=
  if !jwtAccepted tok .refresh now then
    .jwtRejected
  else if revoked_tokens.contains tok.jti then
    .tokenInvalid401
  else
    match find_by_id users tok.sub with
    | none => .userNotFound401
    | some usuario =>
      if !usuario.ativo then
        .userNotFound401
      else
        match timedelta_hours (configGet cfg.jwt_access_expires 24) with
        | .error e => .pythonError e
        | .ok deltaA => .success (create_access_token tok.sub deltaA now jtiNew)

/-! ### The `logout` route and the revocation set (`auth.py`, lines 31-32 and 161-184) -/

/-- Model of `revoked_tokens.add(jti)` on the module-level Python `set`,
represented as a duplicate-free list. -/
def revoke (revoked_tokens : List String) (jti : String) : List String :=
  if revoked_tokens.contains jti then revoked_tokens else jti :: revoked_tokens

/-- The `logout` route effect on the revocation set: behind
`jwt_required()` (valid unexpired access token), add the presented
jti to `revoked_tokens`; nothing else is touched. -/
def logout (revoked_tokens : List String) (tok : Jwt) (now : Nat) : List String :=
  if !jwtAccepted tok .access now then
    revoked_tokens
  else
    revoke revoked_tokens tok.jti

/-! ### The revocation middleware (`auth.py`, lines 318-333) -/

/-- Substring containment, modelling the Python `needle in haystack`
test on strings. -/
def strContains (haystack needle : String) : Bool :=
  (List.range (haystack.toList.length + 1)).any
    (fun i => needle.toList.isPrefixOf (haystack.toList.drop i))

/-- Middleware verdict: let the request proceed, or reject it with the
401 Token foi revogado response. -/
inductive MwResult where
  | allow
  | revoked401
deriving DecidableEq, Repr

/-- The `check_if_token_revoked` before-app-request hook:
if the Flask endpoint name is truthy and contains the substring auth,
return immediately (no check); otherwise read the jti of the JWT
accompanying the request (`jwtClaims`; `none` models the exception path
where no JWT claims are available, swallowed by the bare `except`) and
reject when it is in `revoked_tokens`. -/
def check_if_token_revoked (endpoint : Option String) (jwtClaims : Option Jwt)
    (revoked_tokens : List String) : MwResult :=
  let skip : Bool :=
    match endpoint with
    | some e => strContains e "auth"
    | none => false
  if skip then
    .allow
  else
    match jwtClaims with
    | none => .allow
    | some j => if revoked_tokens.contains j.jti then .revoked401 else .allow

/-! ### The `change-password` route (`auth.py`, lines 212-292), state effect -/

/-- State effect of `change_password` on the user table: all the guard
checks of the route body, then `set_password` + `save` on the current
user.  Response bodies are irrelevant to the claims and omitted. -/
def change_password_update (users : List Usuario) (uid : Nat)
    (senha_atual nova_senha confirmar_senha salt : String) : List Usuario :=
  if senha_atual.data.isEmpty || nova_senha.data.isEmpty || confirmar_senha.data.isEmpty then
    users
  else if nova_senha != confirmar_senha then
    users
  else if nova_senha.data.length < 6 then
    users
  else
    match find_by_id users uid with
    | none => users
    | some usuario =>
      if !usuario.check_password senha_atual then
        users
      else
        users.map (fun v => if v.id == uid then v.set_password nova_senha salt else v)

/-! ### Whole-system state and the operations that touch it -/

/-- The mutable state of the process: the user table (the database rows
the auth routes read and write) and the module-level `revoked_tokens`
set. -/
structure SystemState where
  users : List Usuario
  revoked_tokens : List String
deriving DecidableEq, Repr

/-- One inbound request, as the auth blueprint can observe it. -/
inductive Op where
  | loginRequest (email senha : String) (now : Nat) (jtiA jtiR : String)
  | refreshRequest (tok : Jwt) (now : Nat) (jtiNew : String)
  | logoutRequest (tok : Jwt) (now : Nat)
  | protectedRequest (endpoint : Option String) (jwtClaims : Option Jwt)
  | changePasswordRequest (uid : Nat) (senha_atual nova_senha confirmar_senha salt : String)
deriving Repr

/-- State transition of each operation.  `login` mutates nothing on any
reachable path (every failure returns before any write, and the success
path raises before `update_last_login` could write); `refresh` and the
middleware only read; `logout` adds the presented jti; only
`change_password` writes the user table. -/
def applyOp (s : SystemState) : Op → SystemState
  | .loginRequest _ _ _ _ _ => s
  | .refreshRequest _ _ _ => s
  | .logoutRequest tok now => { s with revoked_tokens := logout s.revoked_tokens tok now }
  | .protectedRequest _ _ => s
  | .changePasswordRequest uid sa nv cf salt =>
      { s with users := change_password_update s.users uid sa nv cf salt }

/-! ### Concrete fixtures used by the witnesses and counterexamples -/

/-- A fixed salt for the concrete accounts below. -/
def demoSalt : String := "s1"

/-- An active professional account with the password correta123. -/
def demoUser : Usuario :=
  { id := 1
    nome := "Maria"
    email := "maria@movemarias.org"
    senha_hash := generate_password_hash "correta123" demoSalt
    tipo_usuario := .PROFISSIONAL
    ativo := true
    ultimo_login := none
    tentativas_login := 0
    bloqueado_ate := none }

/-- An inactive account. -/
def inactiveUser : Usuario :=
  { demoUser with id := 2, email := "inativa@movemarias.org", ativo := false }

/-- The account `demoUser` part-way through a failure streak: three
recorded failed attempts and a lock timestamp. -/
def strainedUser : Usuario :=
  { demoUser with tentativas_login := 3, bloqueado_ate := some 100 }

/-- The account `demoUser` with a lock timestamp at time 50. -/
def lockedUser : Usuario :=
  { demoUser with bloqueado_ate := some 50 }

/-- An access token for `demoUser`, as one login would mint it. -/
def tokA : Jwt :=
  { jti := "a1", sub := 1, kind := .access, issued_at := 0, expires_at := 86400 }

/-- The sibling refresh token from the same login (distinct jti). -/
def tokR : Jwt :=
  { jti := "r1", sub := 1, kind := .refresh, issued_at := 0, expires_at := 2592000 }

/-! ## General lemmas about the revocation set -/

/-- The jti just added to the revocation set is in it. -/
theorem revoke_contains_self (l : List String) (j : String) :
    (revoke l j).contains j = true := by
  unfold revoke
  by_cases h : l.contains j = true
  · rw [if_pos h]
    exact h
  · rw [if_neg h]
    simp [List.contains_cons]

/-- Adding a jti to the revocation set twice is the same as adding it
once. -/
theorem revoke_idem (l : List String) (j : String) : revoke (revoke l j) j = revoke l j := by
  have h := revoke_contains_self l j
  conv_lhs => rw [revoke]
  rw [if_pos h]

/-- Adding a jti to the revocation set never removes another one. -/
theorem mem_revoke_of_mem (l : List String) (j k : String) (h : j ∈ l) : j ∈ revoke l k := by
  unfold revoke
  by_cases hc : l.contains k = true
  · rw [if_pos hc]
    exact h
  · rw [if_neg hc]
    exact List.mem_cons_of_mem _ h

/-! ## Model-layer facts used by the bug analyses -/

/-- `Usuario.increment_login_attempts` does implement the lockout the
spec describes: the attempt that brings the counter to the threshold 5
sets `bloqueado_ate = now + 15 min`.  The `login` route, however,
never calls it (see `c1_lockout_not_wired`). -/
theorem increment_login_attempts_locks_at_threshold (u : Usuario) (now : Nat)
    (h : u.tentativas_login = 4) :
    (u.increment_login_attempts now).bloqueado_ate = some (now + 15 * 60)
    ∧ (u.increment_login_attempts now).tentativas_login = 5 := by
  simp [Usuario.increment_login_attempts, MAX_LOGIN_ATTEMPTS, LOGIN_ATTEMPT_TIMEOUT, h]

/-- `Usuario.reset_login_attempts` does implement the reset the spec
describes; the `login` route never calls it (see
`c3_successful_login_crashes`). -/
theorem reset_login_attempts_resets (u : Usuario) (now : Nat) :
    (u.reset_login_attempts now).tentativas_login = 0
    ∧ (u.reset_login_attempts now).bloqueado_ate = none
    ∧ (u.reset_login_attempts now).ultimo_login = some now :=
  ⟨rfl, rfl, rfl⟩

/-! ## The claims -/

/-- C1.  The claim says 5 consecutive failed logins transition the
account to Locked and a 6th attempt with the correct secret is rejected
as AccountLocked.  The code does not do this: the `login` route never
calls `increment_login_attempts` or `is_blocked`, so a wrong-password
attempt returns the uniform 401 without touching the account, five such
attempts leave the stored account exactly as it was
(`tentativas_login = 0`, `bloqueado_ate = none`, not blocked), and the
6th attempt with the correct secret is evaluated as a fresh attempt —
it passes the password check and then dies on the `timedelta`
`TypeError` of the token-creation line (HTTP 500), not on any lockout
rejection. -/
theorem c1_lockout_not_wired :
    login [demoUser] shippedConfig "maria@movemarias.org" "senhaerrada" 0 "j1" "j2"
      = .failure 401 "Email ou senha inválidos" "wrong_password"
    ∧ (List.range 5).foldl
        (fun st k => applyOp st (.loginRequest "maria@movemarias.org" "senhaerrada" k "j1" "j2"))
        { users := [demoUser], revoked_tokens := [] }
      = { users := [demoUser], revoked_tokens := [] }
    ∧ demoUser.tentativas_login = 0
    ∧ demoUser.bloqueado_ate = none
    ∧ demoUser.is_blocked 60 = false
    ∧ login [demoUser] shippedConfig "maria@movemarias.org" "correta123" 60 "j1" "j2"
      = .pythonError .typeError := by
  decide

/-- C2 counterexample.  The claim says a revoked jti is rejected on any
subsequent protected request regardless of endpoint.  False: the
middleware returns early for every endpoint whose name contains the
substring auth, so after a logout has revoked the jti of `tokA`, a
request to the protected endpoint `auth.get_current_user`
(`GET /api/auth/me`) presenting that very token is allowed through. -/
theorem c2_revocation_skips_auth_endpoints :
    (logout [] tokA 10).contains tokA.jti = true
    ∧ check_if_token_revoked (some "auth.get_current_user") (some tokA) (logout [] tokA 10)
      = .allow := by
  decide

/-- C2 amended.  For a protected request whose endpoint name does not
contain the substring auth, and whose JWT claims the middleware can
read, a revoked jti is rejected with the 401 revoked response —
regardless of the token kind or of whether the token has also expired
(the middleware consults only the revocation set). -/
theorem c2_revocation_outside_auth (e : String) (j : Jwt) (revoked : List String)
    (h1 : strContains e "auth" = false) (h2 : revoked.contains j.jti = true) :
    check_if_token_revoked (some e) (some j) revoked = .revoked401 := by
  have h2m : j.jti ∈ revoked := by simpa using h2
  simp [check_if_token_revoked, h1, h2m]

/-- C2 witness: the amended theorem applied to a concrete non-auth
endpoint and the revoked token `tokA`. -/
theorem c2_revocation_outside_auth_witness :
    strContains "beneficiarias.listar" "auth" = false
    ∧ List.contains ["a1"] tokA.jti = true
    ∧ check_if_token_revoked (some "beneficiarias.listar") (some tokA) ["a1"] = .revoked401 :=
  ⟨by decide, by decide,
    c2_revocation_outside_auth "beneficiarias.listar" tokA ["a1"] (by decide) (by decide)⟩

/-- C3.  The claim says a successful login resets the failure counter,
clears the lock, sets the last-login time and returns a token pair.
The code cannot do any of this: with the shipped configuration the
route raises `TypeError` while building the access-token TTL, and even
with the TTL keys absent (route defaults 24/30) it raises
`AttributeError`, because `usuario.update_last_login()` names a method
the `Usuario` class does not define (`reset_login_attempts`, which
performs exactly the claimed reset, is never called).  Either way the
request ends in HTTP 500 and the stored account keeps its counter and
lock unchanged. -/
theorem c3_successful_login_crashes :
    login [strainedUser] shippedConfig "maria@movemarias.org" "correta123" 0 "j1" "j2"
      = .pythonError .typeError
    ∧ login [strainedUser] defaultedConfig "maria@movemarias.org" "correta123" 0 "j1" "j2"
      = .pythonError .attributeError
    ∧ update_last_login_method = none
    ∧ applyOp { users := [strainedUser], revoked_tokens := [] }
        (.loginRequest "maria@movemarias.org" "correta123" 0 "j1" "j2")
      = { users := [strainedUser], revoked_tokens := [] }
    ∧ strainedUser.tentativas_login = 3
    ∧ strainedUser.bloqueado_ate = some 100 :=
  ⟨by decide, by decide, rfl, by decide, rfl, rfl⟩

/-- C4.  The claim says tokens issued by login expire at
`issued_at + TTL` (defaults 24 h access, 30 d refresh).  The code never
issues such a token: `config.py` stores the TTL keys as `timedelta`
objects, and the route wraps the stored value in `timedelta(hours=...)`
/ `timedelta(days=...)` again, which raises `TypeError`, so every
correct-credential login ends in HTTP 500.  The route-level default
path (keys absent, plain numbers 24 and 30) and the library gate do
behave as the claim describes: the delta computes to 24 h / 30 d, an
access token carries `expires_at = issued_at + 24 h`, and the
`jwt_required` verification accepts it at t0 + 23h59m and rejects it at
t0 + 24h01m. -/
theorem c4_ttl_config_type_error :
    shippedConfig.jwt_access_expires = some (.td (24 * 3600))
    ∧ shippedConfig.jwt_refresh_expires = some (.td (30 * 86400))
    ∧ timedelta_hours (configGet shippedConfig.jwt_access_expires 24) = .error .typeError
    ∧ login [demoUser] shippedConfig "maria@movemarias.org" "correta123" 5 "j1" "j2"
      = .pythonError .typeError
    ∧ timedelta_hours (configGet defaultedConfig.jwt_access_expires 24) = .ok (24 * 3600)
    ∧ timedelta_days (configGet defaultedConfig.jwt_refresh_expires 30) = .ok (30 * 86400)
    ∧ (create_access_token 1 (24 * 3600) 1000 "j").expires_at
      = (create_access_token 1 (24 * 3600) 1000 "j").issued_at + 24 * 3600
    ∧ jwtAccepted (create_access_token 1 (24 * 3600) 0 "j") .access 86340 = true
    ∧ jwtAccepted (create_access_token 1 (24 * 3600) 0 "j") .access 86460 = false :=
  ⟨rfl, rfl, rfl, by decide, rfl, rfl, by decide, by decide, by decide⟩

/-- C5 counterexample.  The claim says all authentication failures
other than the locked state return the uniform invalid-credentials
response.  False: a login against an inactive account returns a
distinct 401 message, revealing that the account exists and is
inactive, while the same request against a directory not containing
the account returns the uniform message. -/
theorem c5_inactive_response_distinct :
    (login [inactiveUser] shippedConfig "inativa@movemarias.org" "tentativa1" 0 "j1" "j2").visible
      = (401, "Usuário inativo. Entre em contato com o administrador.")
    ∧ (login [] shippedConfig "inativa@movemarias.org" "tentativa1" 0 "j1" "j2").visible
      = (401, "Email ou senha inválidos")
    ∧ (login [inactiveUser] shippedConfig "inativa@movemarias.org" "tentativa1" 0 "j1" "j2").visible
      ≠ (login [] shippedConfig "inativa@movemarias.org" "tentativa1" 0 "j1" "j2").visible := by
  decide

/-- C5 amended.  The unknown-login-name failure and the known-name,
wrong-secret failure are indistinguishable to the caller: both return
status 401 with the same message, while the internal security-event
log records the precise reasons (`user_not_found` vs `wrong_password`).
The inactive-account failure is excluded: it returns a distinct
message (see `c5_inactive_response_distinct`), and the code has no
locked-state response at all. -/
theorem c5_uniform_unknown_vs_wrong_secret
    (users1 users2 : List Usuario) (cfg1 cfg2 : AppConfig)
    (e1 e2 s1 s2 : String) (n1 n2 : Nat) (a1 b1 a2 b2 : String) (u : Usuario)
    (h1 : find_by_email users1 e1 = none)
    (h2 : find_by_email users2 e2 = some u)
    (h3 : u.ativo = true)
    (h4 : u.check_password s2 = false) :
    (login users1 cfg1 e1 s1 n1 a1 b1).visible = (401, "Email ou senha inválidos")
    ∧ (login users2 cfg2 e2 s2 n2 a2 b2).visible = (401, "Email ou senha inválidos")
    ∧ (login users1 cfg1 e1 s1 n1 a1 b1).loggedReason = some "user_not_found"
    ∧ (login users2 cfg2 e2 s2 n2 a2 b2).loggedReason = some "wrong_password" := by
  refine ⟨?_, ?_, ?_, ?_⟩ <;>
    simp [login, h1, h2, h3, h4, LoginResponse.visible, LoginResponse.loggedReason]

/-- C5 witness: the amended theorem applied to an empty directory and
to `demoUser` with a wrong secret. -/
theorem c5_uniform_witness :
    find_by_email [] "x@y.z" = none
    ∧ find_by_email [demoUser] "maria@movemarias.org" = some demoUser
    ∧ demoUser.ativo = true
    ∧ demoUser.check_password "senhaerrada" = false
    ∧ (login [] shippedConfig "x@y.z" "p1" 0 "a" "b").visible = (401, "Email ou senha inválidos")
    ∧ (login [demoUser] shippedConfig "maria@movemarias.org" "senhaerrada" 0 "a" "b").visible
      = (401, "Email ou senha inválidos")
    ∧ (login [] shippedConfig "x@y.z" "p1" 0 "a" "b").loggedReason = some "user_not_found"
    ∧ (login [demoUser] shippedConfig "maria@movemarias.org" "senhaerrada" 0 "a" "b").loggedReason
      = some "wrong_password" := by
  have h := c5_uniform_unknown_vs_wrong_secret [] [demoUser] shippedConfig shippedConfig
    "x@y.z" "maria@movemarias.org" "p1" "senhaerrada" 0 0 "a" "b" "a" "b" demoUser
    (by decide) (by decide) (by decide) (by decide)
  exact ⟨by decide, by decide, by decide, by decide, h.1, h.2.1, h.2.2.1, h.2.2.2⟩

/-- C6.  The claim says logout revokes only the presented access
token's jti and a subsequent refresh with the sibling refresh token
still succeeds.  The frame half is true of the code: logout adds
exactly the presented jti, the refresh token's jti is not in the
registry, and the refresh route's own revocation check passes.  The
success half is not: with the shipped configuration the refresh route
raises the same `timedelta` `TypeError` while minting the new access
token (HTTP 500) — under the route-default numeric TTL path the same
request returns the new access token, showing the failure is solely
the TTL bug, not revocation. -/
theorem c6_sibling_refresh_not_revoked :
    logout [] tokA 10 = ["a1"]
    ∧ (logout [] tokA 10).contains tokR.jti = false
    ∧ refresh [demoUser] (logout [] tokA 10) shippedConfig tokR 20 "n1"
      = .pythonError .typeError
    ∧ refresh [demoUser] (logout [] tokA 10) defaultedConfig tokR 20 "n1"
      = .success (create_access_token 1 (24 * 3600) 20 "n1") := by
  decide

/-- C7.  Revoking the same jti twice through logout leaves the system
state — in particular the membership of the revocation set, hence the
result of every later revocation check — identical to revoking it
once: the Python `set.add` is idempotent. -/
theorem c7_logout_idempotent (s : SystemState) (tok : Jwt) (now : Nat) :
    applyOp (applyOp s (.logoutRequest tok now)) (.logoutRequest tok now)
      = applyOp s (.logoutRequest tok now) := by
  simp only [applyOp]
  by_cases h : jwtAccepted tok .access now
  · simp [logout, h, revoke_idem]
  · simp [logout, h]

/-- C8.  Once `now ≥ bloqueado_ate`, `is_blocked` returns false, and a
login attempt against the account is evaluated exactly as it would be
against the same account with the lock cleared (the route reads only
the email, active flag, password hash and id, never the lock fields) —
the timer alone never locks an account permanently. -/
theorem c8_stale_lock_treated_active (u : Usuario) (t now : Nat)
    (h1 : u.bloqueado_ate = some t) (h2 : t ≤ now) :
    u.is_blocked now = false
    ∧ ∀ (cfg : AppConfig) (email senha : String) (n : Nat) (jA jR : String),
        login [u] cfg email senha n jA jR
          = login [{ u with bloqueado_ate := none }] cfg email senha n jA jR := by
  constructor
  · simp [Usuario.is_blocked, h1]
    omega
  · intro cfg email senha n jA jR
    by_cases he : (u.email == pyStrip (pyLower email)) = true
    · simp only [login, find_by_email, List.find?, he]
      rfl
    · simp only [login, find_by_email, List.find?, he]

/-- C8 witness: the theorem applied to `lockedUser` (lock stamp 50) at
time 60, with a concrete login attempt. -/
theorem c8_stale_lock_witness :
    lockedUser.bloqueado_ate = some 50
    ∧ 50 ≤ 60
    ∧ lockedUser.is_blocked 60 = false
    ∧ login [lockedUser] shippedConfig "maria@movemarias.org" "correta123" 60 "a" "b"
      = login [{ lockedUser with bloqueado_ate := none }] shippedConfig
          "maria@movemarias.org" "correta123" 60 "a" "b" := by
  have h := c8_stale_lock_treated_active lockedUser 50 60 (by decide) (by decide)
  exact ⟨by decide, by decide, h.1, h.2 shippedConfig "maria@movemarias.org" "correta123" 60 "a" "b"⟩

/-- C9.  Setting a password stores its (modelled) bcrypt hash and
checking that same password against the result succeeds; the check, a
pure comparison, leaves every stored field of the account unchanged. -/
theorem c9_password_roundtrip (u : Usuario) (senha salt p : String) :
    ((u.set_password senha salt).check_password_eff senha).fst = true
    ∧ (u.check_password_eff p).snd = u := by
  constructor
  · simp [Usuario.set_password, Usuario.check_password_eff, check_password_hash,
      generate_password_hash]
  · rfl

/-- C10.  No operation of the system removes a jti from the revocation
set: login, refresh and the middleware do not write it, logout only
adds to it, and the password change touches only the user table — once
revoked, a jti stays revoked for the life of the process. -/
theorem c10_revocation_monotone (s : SystemState) (op : Op) (j : String)
    (h : j ∈ s.revoked_tokens) :
    j ∈ (applyOp s op).revoked_tokens := by
  cases op with
  | loginRequest e p n a b => exact h
  | refreshRequest t n k => exact h
  | logoutRequest tok now =>
      simp only [applyOp, logout]
      split
      · exact h
      · exact mem_revoke_of_mem _ _ _ h
  | protectedRequest e c => exact h
  | changePasswordRequest uid sa nv cf salt => exact h

/-- C10 witness: the theorem applied to a state in which `a1` is
revoked and a further logout operation. -/
theorem c10_revocation_monotone_witness :
    "a1" ∈ (SystemState.mk [demoUser] ["a1"]).revoked_tokens
    ∧ "a1" ∈ (applyOp (SystemState.mk [demoUser] ["a1"]) (.logoutRequest tokR 10)).revoked_tokens :=
  ⟨by decide, c10_revocation_monotone (SystemState.mk [demoUser] ["a1"])
    (.logoutRequest tokR 10) "a1" (by decide)⟩

end MoveMarias
